import Mathlib

/-!
Shallow embedding of `gupb/controller/botelka_ml/wisdom.py` (GUPB botelka
controller core): the action-cost path estimator and the state/feature
encoder, together with the external collaborators they touch (facing
model, shortest-path search, weapon catalog), modelled from the spec where
the collaborator's code lives outside this repository snapshot.
-/

/-- Integer grid position (`gupb.model.coordinates.Coords`). -/
structure Coords where
  x : Int
  y : Int
deriving DecidableEq, Repr

/-- Componentwise difference of positions (`sub_coords`). -/
def sub_coords (a b : Coords) : Coords := ⟨a.x - b.x, a.y - b.y⟩

/-- Componentwise sum of positions (`add_coords`). -/
def add_coords (a b : Coords) : Coords := ⟨a.x + b.x, a.y + b.y⟩

/-- Modelled from the spec: `Facing` (gupb.model.characters, outside src/):
one of four cardinal orientations, cyclic, with left/right rotation and a
unit-delta value. -/
inductive Facing where
  | up
  | right
  | down
  | left
deriving DecidableEq, Repr

/-- Modelled from the spec: the unit delta vector of a facing
(screen coordinates: up decreases y). -/
def Facing.value : Facing → Coords
  | .up => ⟨0, -1⟩
  | .right => ⟨1, 0⟩
  | .down => ⟨0, 1⟩
  | .left => ⟨-1, 0⟩

/-- Modelled from the spec: single left rotation in the 4-cycle. -/
def Facing.turn_left : Facing → Facing
  | .up => .left
  | .left => .down
  | .down => .right
  | .right => .up

/-- Modelled from the spec: single right rotation, inverse of `turn_left`. -/
def Facing.turn_right : Facing → Facing
  | .up => .right
  | .right => .down
  | .down => .left
  | .left => .up

/-- Modelled from the spec: enum lookup by value, `Facing(delta)`; fails
(Python `ValueError`) when the delta is not a unit cardinal step. -/
def Facing.ofDelta (c : Coords) : Option Facing :=
  if c = ⟨0, -1⟩ then some .up
  else if c = ⟨1, 0⟩ then some .right
  else if c = ⟨0, 1⟩ then some .down
  else if c = ⟨-1, 0⟩ then some .left
  else none

/-- The five weapon identities of the catalog (`WEAPONS` keys). -/
inductive Weapon where
  | bow
  | axe
  | sword
  | knife
  | amulet
deriving DecidableEq, Repr

/-- Weapon identity names as they occur in snapshots and loot; `dagger`
stands for any identity outside the fixed catalog. -/
inductive WeaponName where
  | bow
  | axe
  | sword
  | knife
  | amulet
  | dagger
deriving DecidableEq, Repr

/-- The catalog lookup `WEAPONS.get(name)` (lines 15-21): `none` models a
name absent from the dictionary. -/
def WEAPONS_get : WeaponName → Option Weapon
  | .bow => some .bow
  | .axe => some .axe
  | .sword => some .sword
  | .knife => some .knife
  | .amulet => some .amulet
  | .dagger => none

/-- `weapon_ranking` (lines 41-50): type dispatch; any argument that is not
one of the four ranked weapon classes (a knife, or Python `None` from a
failed `WEAPONS.get`) falls through to the final `return 0`. -/
def weapon_ranking : Option Weapon → Nat
  | some .bow => 10
  | some .amulet => 8
  | some .axe => 6
  | some .sword => 6
  | _ => 0

/-- `MAX_HEALTH` (line 38). -/
def MAX_HEALTH : Nat := 5

/-- The occupant description readable from a visible tile
(`tile.character`): health, facing and carried weapon name. -/
structure CharacterView where
  health : Nat
  facing : Facing
  weaponName : WeaponName
deriving DecidableEq, Repr

/-- A visible tile: optional occupant and optional loot (ground effects are
not needed by the claims under study). -/
structure Tile where
  character : Option CharacterView
  loot : Option WeaponName
deriving DecidableEq, Repr

/-- `ChampionKnowledge`: own position plus the visible-tiles mapping,
modelled as an insertion-ordered association list (Python dict iteration
order is insertion order). -/
structure ChampionKnowledge where
  position : Coords
  visibleTiles : List (Coords × Tile)
deriving DecidableEq, Repr

/-- Dictionary lookup `visible_tiles.get(c)` / `visible_tiles[c]`:
first entry with the matching key. -/
def lookupTiles (tiles : List (Coords × Tile)) (c : Coords) : Option Tile :=
  (tiles.find? fun ct => ct.1 = c).map fun ct => ct.2

/-- The Python `while facing != exit_facing` rotation-counting loop of
`move_one_tile` (lines 347-357), with fuel 4: the facing cycle has length
4, so 4 iterations always suffice. -/
def turn_count (step : Facing → Facing) (target : Facing) : Nat → Facing → Nat
  | 0, _ => 0
  | n + 1, f => if f = target then 0 else turn_count step target n (step f) + 1

/-- `Wisdom.move_one_tile` (lines 342-361): exit facing from the step
delta; count left turns starting from 0 and right turns starting from 1;
take the smaller; add 1 for the trailing move. `none` models the
`ValueError` raised by `Facing(...)` on a non-cardinal step. -/
def move_one_tile (starting_facing : Facing) (coord_0 coord_1 : Coords) :
    Option (Nat × Facing) :=
  match Facing.ofDelta (sub_coords coord_1 coord_0) with
  | none => none
  | some exit_facing =>
    let left_actions := turn_count Facing.turn_left exit_facing 4 starting_facing
    let right_actions := 1 + turn_count Facing.turn_right exit_facing 4 starting_facing
    let actions := if left_actions > right_actions then right_actions else left_actions
    some (actions + 1, exit_facing)

/-- Modelled from the spec (section 4.3): `d`, the minimal number of
single-step rotations in either direction taking one facing to another
(minimum of the left-turn count and the right-turn count). -/
def min_rotations (f g : Facing) : Nat :=
  min (turn_count Facing.turn_left g 4 f) (turn_count Facing.turn_right g 4 f)

/-- The walkability grid (`pathfinding.core.grid.Grid`): `matrix` is indexed
row first, `matrix[y][x]`. -/
structure GridMap where
  matrix : List (List Bool)
deriving DecidableEq, Repr

/-- Grid width: length of a row. -/
def GridMap.width (g : GridMap) : Nat :=
  match g.matrix with
  | [] => 0
  | r :: _ => r.length

/-- Grid height: number of rows. -/
def GridMap.height (g : GridMap) : Nat := g.matrix.length

/-- Whether a position lies inside the grid extent (`grid.node(x, y)`
raises `IndexError` outside it). -/
def GridMap.inBounds (g : GridMap) (c : Coords) : Bool :=
  0 ≤ c.x && c.x < (g.width : Int) && 0 ≤ c.y && c.y < (g.height : Int)

/-- Walkability of a cell: in bounds and marked walkable in the matrix. -/
def GridMap.walkableAt (g : GridMap) (c : Coords) : Bool :=
  g.inBounds c && ((g.matrix.getD c.y.toNat []).getD c.x.toNat false)

/-- The four cardinal neighbours in the expansion order of the search
library (up, right, down, left). -/
def neighborsOf (c : Coords) : List Coords :=
  [⟨c.x, c.y - 1⟩, ⟨c.x + 1, c.y⟩, ⟨c.x, c.y + 1⟩, ⟨c.x - 1, c.y⟩]

/-- Modelled from the spec (section 4.2, ShortestPathFinder; realized in
the repository by the external pathfinding library's `DijkstraFinder`):
uniform-cost search over the walkability grid. The queue carries each
frontier cell together with its reversed path from the start; positions are
marked visited when enqueued; fuel bounds the number of dequeues (each cell
is enqueued at most once, so `width * height + 1` dequeues suffice).
Returns the empty list when the goal is unreachable, exactly as the
library's `find_path` returns an empty path rather than raising. -/
def bfsAux (g : GridMap) (goal : Coords) :
    Nat → List (Coords × List Coords) → List Coords → List Coords
  | _, [], _ => []
  | 0, _ :: _, _ => []
  | fuel + 1, (c, path) :: rest, visited =>
    if c = goal then path.reverse
    else
      let ns := (neighborsOf c).filter fun n => g.walkableAt n && !(visited.contains n)
      bfsAux g goal fuel (rest ++ ns.map fun n => (n, n :: path)) (visited ++ ns)

/-- Modelled from the spec (section 4.2): `find_path(grid, start, goal)`.
`none` models the `IndexError` of `grid.node` on an out-of-bounds start or
goal; `some []` is the library's unreachable result; when the start equals
the goal the library returns the one-node path immediately. -/
def find_path (g : GridMap) (start goal : Coords) : Option (List Coords) :=
  if g.inBounds start && g.inBounds goal then
    some (bfsAux g goal (g.width * g.height + 1) [(start, [start])] [start])
  else none

/-- The per-step fold inside `Wisdom.find_path_len` (lines 336-338): walk
consecutive path cells, threading the exit facing of each step into the
next, summing action counts. `none` propagates a failed `move_one_tile`. -/
def find_path_len_fold (facing : Facing) : List Coords → Option Nat
  | c0 :: c1 :: rest =>
    (move_one_tile facing c0 c1).bind fun af =>
      (find_path_len_fold af.2 (c1 :: rest)).bind fun steps =>
        some (af.1 + steps)
  | _ => some 0

/-- `Wisdom.find_path_len` (lines 325-340): run the finder from the bot's
position to `coords`, then fold `move_one_tile` over the path. An empty
(unreachable) path makes the loop body run zero times, so the function
returns 0 rather than failing. -/
def find_path_len (g : GridMap) (bot_coords : Coords) (facing : Facing)
    (coords : Coords) : Option Nat :=
  (find_path g bot_coords coords).bind fun path => find_path_len_fold facing path

/-- `Wisdom.distance_to_menhir` (lines 301-309): `find_path_len` with the
menhir as target; any exception (`none`) is replaced by the sentinel
1000000. -/
def distance_to_menhir (g : GridMap) (bot_coords : Coords) (facing : Facing)
    (menhir : Coords) : Nat :=
  match find_path_len g bot_coords facing menhir with
  | none => 1000000
  | some steps => steps

/-- The own-character reading prologue of `get_state` (lines 85-93):
`visible_tiles.get(position)`, then `bot_tile.character if bot_tile else
None`, then per-field defaults `"knife"`, `Facing.UP`, `5` when the
character is absent. Returns (weapon name, facing, health). -/
def get_state_own_fields (knowledge : ChampionKnowledge) :
    WeaponName × Facing × Nat :=
  let bot_coords := knowledge.position
  let bot_tile := lookupTiles knowledge.visibleTiles bot_coords
  let bot_character := bot_tile.bind fun t => t.character
  let bot_weapon := match bot_character with
    | some c => c.weaponName
    | none => WeaponName.knife
  let facing := match bot_character with
    | some c => c.facing
    | none => Facing.up
  let health := match bot_character with
    | some c => c.health
    | none => 5
  (bot_weapon, facing, health)

/-- The `visible_enemies` field of `get_state` (lines 95-99): number of
visible cells hosting a character at a position other than the bot's. -/
def visible_enemies_count (knowledge : ChampionKnowledge) : Nat :=
  (knowledge.visibleTiles.filter fun ct =>
    ct.2.character.isSome && decide (ct.1 ≠ knowledge.position)).length

/-- The `distance_to_menhir` field of `get_state` (lines 112-113):
`x, y = sub_coords(position, menhir); np.sqrt(x ** 2 + y ** 2)`. The
floating-point square root is modelled exactly as the relation holding of
the nonnegative rational whose square is `x ^ 2 + y ^ 2` (the concrete
inputs used below are perfect squares, where the float computation is
exact). -/
def get_state_menhir_distance (bot_coords menhir : Coords) (r : ℚ) : Prop :=
  0 ≤ r ∧
    r ^ 2 = ((sub_coords bot_coords menhir).x ^ 2 +
      (sub_coords bot_coords menhir).y ^ 2 : ℚ)

/-- `Wisdom.bot_facing` (lines 222-228): `none` models both the `KeyError`
of `visible_tiles[position]` and the failed occupant assertion. -/
def bot_facing (knowledge : ChampionKnowledge) : Option Facing :=
  match lookupTiles knowledge.visibleTiles knowledge.position with
  | none => none
  | some tile => tile.character.map fun c => c.facing

/-- `Wisdom.bot_health` (lines 230-236). -/
def bot_health (knowledge : ChampionKnowledge) : Option Nat :=
  match lookupTiles knowledge.visibleTiles knowledge.position with
  | none => none
  | some tile => tile.character.map fun c => c.health

/-- `Wisdom.prev_bot_health` (lines 238-246): `MAX_HEALTH` when there is no
previous snapshot, otherwise the occupant's health at the previous position
in the previous snapshot. -/
def prev_bot_health (prev_knowledge : Option ChampionKnowledge) : Option Nat :=
  match prev_knowledge with
  | none => some MAX_HEALTH
  | some pk =>
    match lookupTiles pk.visibleTiles pk.position with
    | none => none
    | some tile => tile.character.map fun c => c.health

/-- `Wisdom.bot_weapon` (lines 248-256): read the occupant's weapon name
and resolve it through `WEAPONS[name]` (`none` also models the `KeyError`
of an unrecognized name). -/
def bot_weapon (knowledge : ChampionKnowledge) : Option Weapon :=
  match lookupTiles knowledge.visibleTiles knowledge.position with
  | none => none
  | some tile =>
    match tile.character with
    | none => none
    | some c => WEAPONS_get c.weaponName

/-- `Wisdom.lost_health` (lines 316-318): current health differs from
previous health. -/
def lost_health (knowledge : ChampionKnowledge)
    (prev_knowledge : Option ChampionKnowledge) : Option Bool :=
  (bot_health knowledge).bind fun h =>
    (prev_bot_health prev_knowledge).bind fun hp =>
      some (h != hp)

/-- `Wisdom.enemies_visible` (lines 266-272): any visible tile hosting a
character; the bot's own tile is not excluded. -/
def enemies_visible (knowledge : ChampionKnowledge) : Bool :=
  knowledge.visibleTiles.any fun ct => ct.2.character.isSome

/-- The lazily evaluated generator of `Wisdom.better_weapon_visible`
(lines 274-280): scan the visible tiles in iteration order; for each tile
carrying loot, resolve the loot name through `WEAPONS.get` (unknown names
become `none`, ranked 0) and compare against the bot's weapon rank. `none`
models a failure of `bot_weapon` while evaluating the condition. -/
def better_weapon_scan (knowledge : ChampionKnowledge) :
    List (Coords × Tile) → Option Bool
  | [] => some false
  | (_, t) :: rest =>
    match t.loot with
    | none => better_weapon_scan knowledge rest
    | some lootName =>
      match bot_weapon knowledge with
      | none => none
      | some bw =>
        if weapon_ranking (WEAPONS_get lootName) > weapon_ranking (some bw) then
          some true
        else better_weapon_scan knowledge rest

/-- `Wisdom.better_weapon_visible` (lines 274-280). -/
def better_weapon_visible (knowledge : ChampionKnowledge) : Option Bool :=
  better_weapon_scan knowledge knowledge.visibleTiles

/-- `Wisdom.will_pick_up_worse_weapon` (lines 282-291): unguarded lookup of
the cell directly ahead; `False` when it carries no loot; otherwise compare
the loot's rank with the bot's weapon rank. -/
def will_pick_up_worse_weapon (knowledge : ChampionKnowledge) : Option Bool :=
  (bot_facing knowledge).bind fun f =>
    match lookupTiles knowledge.visibleTiles (add_coords knowledge.position f.value) with
    | none => none
    | some tileInFront =>
      match tileInFront.loot with
      | none => some false
      | some lootName =>
        (bot_weapon knowledge).bind fun bw =>
          some (weapon_ranking (WEAPONS_get lootName) < weapon_ranking (some bw))

/-- The lazily evaluated generator of `Wisdom.can_attack_player`
(lines 293-299): walk the weapon's cut positions in order; each one is
looked up unguardedly (`none` models the `KeyError` on a cell absent from
the visible-tiles map); stop with `true` at the first cell hosting a
character, so later cells are never looked up. -/
def visible_character_scan (knowledge : ChampionKnowledge) :
    List Coords → Option Bool
  | [] => some false
  | c :: rest =>
    match lookupTiles knowledge.visibleTiles c with
    | none => none
    | some tile =>
      if tile.character.isSome then some true
      else visible_character_scan knowledge rest

/-- `Wisdom.can_attack_player` (lines 293-299). The attack footprint
`bot_weapon.cut_positions(terrain, position, facing)` is owned by the
external weapon catalog (spec section 6) and is passed here as the list of
cells it produces. -/
def can_attack_player (knowledge : ChampionKnowledge)
    (cut_cells : List Coords) : Option Bool :=
  visible_character_scan knowledge cut_cells

/-- The enemy-offset list of `Wisdom.relative_enemies_positions`
(lines 162-171): visible cells hosting a character other than the bot, in
map-iteration order, as offsets from the bot's position. -/
def enemies_rel_coords (knowledge : ChampionKnowledge) : List Coords :=
  ((knowledge.visibleTiles.filter fun ct =>
    ct.2.character.isSome && decide (ct.1 ≠ knowledge.position)).map
      fun ct => ct.1).map fun e => sub_coords e knowledge.position

/-- The guarded list write `result[i] = v` (Python raises `IndexError` when
the index is out of range). -/
def list_set_checked (l : List Int) (i : Nat) (v : Int) : Option (List Int) :=
  if i < l.length then some (l.set i v) else none

/-- The fill loop of `Wisdom.relative_enemies_positions` (lines 174-181):
write the i-th offset into slots `2*i` and `2*i+1` of the preallocated
10-element result. -/
def fill_relative : List Coords → Nat → List Int → Option (List Int)
  | [], _, acc => some acc
  | c :: rest, i, acc =>
    (list_set_checked acc (2 * i) c.x).bind fun a =>
      (list_set_checked a (2 * i + 1) c.y).bind fun b =>
        fill_relative rest (i + 1) b

/-- `Wisdom.relative_enemies_positions` (lines 147-183): `none` models the
`IndexError` raised when more offsets are written than the 10 preallocated
slots can hold. -/
def relative_enemies_positions (knowledge : ChampionKnowledge) :
    Option (List Int) :=
  fill_relative (enemies_rel_coords knowledge) 0 (List.replicate 10 0)

/-- A tile hosting a full-health knife-carrying occupant facing up. -/
def tile_with_char : Tile := ⟨some ⟨5, Facing.up, WeaponName.knife⟩, none⟩

/-- An empty visible tile: no occupant, no loot. -/
def tile_plain : Tile := ⟨none, none⟩

/-- A tile carrying loot whose identity is outside the weapon catalog. -/
def tile_loot_dagger : Tile := ⟨none, some WeaponName.dagger⟩

/-- A 1-by-1 grid with a single walkable cell. -/
def grid_single : GridMap := ⟨[[true]]⟩

/-- A 2-by-1 grid whose second cell is blocked: the goal (1,0) is
unreachable from (0,0). -/
def grid_blocked_goal : GridMap := ⟨[[true, false]]⟩

/-- A 2-by-1 fully walkable grid. -/
def grid_open_pair : GridMap := ⟨[[true, true]]⟩

/-- A snapshot whose only occupant is the bot on its own cell. -/
def snap_self_only : ChampionKnowledge := ⟨⟨0, 0⟩, [(⟨0, 0⟩, tile_with_char)]⟩

/-- A snapshot with two visible enemies inserted far-first: at (2,0)
(Euclidean distance 2) before (0,-1) (distance 1). -/
def snap_far_then_near : ChampionKnowledge :=
  ⟨⟨0, 0⟩, [(⟨0, 0⟩, tile_with_char), (⟨2, 0⟩, tile_with_char),
    (⟨0, -1⟩, tile_with_char)]⟩

/-- The spec's relative-offset scenario: two visible enemies at offsets
(1,0) and (0,-1) from the bot. -/
def snap_offsets_scenario : ChampionKnowledge :=
  ⟨⟨0, 0⟩, [(⟨0, 0⟩, tile_with_char), (⟨1, 0⟩, tile_with_char),
    (⟨0, -1⟩, tile_with_char)]⟩

/-- A snapshot with a visible loot whose identity is outside the catalog. -/
def snap_dagger_loot : ChampionKnowledge :=
  ⟨⟨0, 0⟩, [(⟨0, 0⟩, tile_with_char), (⟨1, 0⟩, tile_loot_dagger)]⟩

/-- A snapshot whose own cell is visible but carries no occupant. -/
def snap_no_occupant : ChampionKnowledge := ⟨⟨0, 0⟩, [(⟨0, 0⟩, tile_plain)]⟩

/-- A snapshot with an enemy on the adjacent cell (1,0); the cell (2,0) is
not visible. -/
def snap_adjacent_enemy : ChampionKnowledge :=
  ⟨⟨0, 0⟩, [(⟨0, 0⟩, tile_with_char), (⟨1, 0⟩, tile_with_char)]⟩

/-- A first-tick snapshot in which the bot has 3 health. -/
def snap_hurt_bot : ChampionKnowledge :=
  ⟨⟨0, 0⟩, [(⟨0, 0⟩, ⟨some ⟨3, Facing.up, WeaponName.knife⟩, none⟩)]⟩

/-! ## Theorems -/

/-- Dequeuing a cell equal to the goal immediately returns its recorded
path, for any positive fuel. -/
theorem bfsAux_at_goal (g : GridMap) (goal : Coords) (n : Nat)
    (path : List Coords) (rest : List (Coords × List Coords))
    (visited : List Coords) :
    bfsAux g goal (n + 1) ((goal, path) :: rest) visited = path.reverse := by
  simp [bfsAux]

/-- The search started at an in-bounds cell with that same cell as goal
returns the one-node path. -/
theorem find_path_self (g : GridMap) (p : Coords) (h : g.inBounds p = true) :
    find_path g p p = some [p] := by
  unfold find_path
  rw [if_pos (by simp [h])]
  rw [bfsAux_at_goal]
  rfl

/-- Claim C1: `move_one_tile` is claimed to cost `d + 1` where `d` is the
minimal number of rotations in either direction; but for a step whose exit
facing is one right turn away (facing up, step (0,0) to (1,0), `d = 1`)
the code returns cost 3 instead of 2, because its right-turn counter
starts at 1. -/
theorem C1_move_one_tile_right_turn_costs_extra :
    move_one_tile Facing.up ⟨0, 0⟩ ⟨1, 0⟩ = some (3, Facing.right) ∧
    min_rotations Facing.up Facing.right + 1 = 2 := by
  decide

/-- Claim C2: with the menhir cell blocked (unreachable), the finder
returns the empty path without raising, the per-step loop runs zero times,
and `distance_to_menhir` returns 0 — a plausible finite distance, not the
maximal sentinel the claim requires. -/
theorem C2_unreachable_returns_zero :
    find_path grid_blocked_goal ⟨0, 0⟩ ⟨1, 0⟩ = some [] ∧
    find_path_len grid_blocked_goal ⟨0, 0⟩ Facing.up ⟨1, 0⟩ = some 0 ∧
    distance_to_menhir grid_blocked_goal ⟨0, 0⟩ Facing.up ⟨1, 0⟩ = 0 := by
  decide

/-- Claim C5, counterexample: on a snapshot whose only occupant is the bot
on its own cell, `enemies_visible` is true (the code never excludes self),
although the count of occupants other than self is 0 — the claim requires
false here. -/
theorem C5_counterexample_self_counts :
    enemies_visible snap_self_only = true ∧
    visible_enemies_count snap_self_only = 0 := by
  decide

/-- Claim C5, amended: `enemies_visible` is true iff some visible cell
hosts an occupant, the bot itself included. -/
theorem C5_enemies_visible_any_character (k : ChampionKnowledge) :
    enemies_visible k = true ↔
      ∃ c t, (c, t) ∈ k.visibleTiles ∧ t.character.isSome = true := by
  simp [enemies_visible, List.any_eq_true, Prod.exists]

/-- Claim C5, witness: the amended characterization evaluated on the
self-only snapshot. -/
theorem C5_enemies_visible_any_character_witness :
    enemies_visible snap_self_only = true ↔
      ∃ c t, (c, t) ∈ snap_self_only.visibleTiles ∧ t.character.isSome = true :=
  C5_enemies_visible_any_character snap_self_only

/-- Claim C6: an out-of-catalog loot identity is resolved by
`WEAPONS.get` to nothing, ranked 0 by the fall-through branch of
`weapon_ranking`, and `better_weapon_visible` completes with `false`
instead of failing with a lookup error. -/
theorem C6_unknown_loot_ranked_zero :
    WEAPONS_get WeaponName.dagger = none ∧
    weapon_ranking (WEAPONS_get WeaponName.dagger) = 0 ∧
    better_weapon_visible snap_dagger_loot = some false := by
  decide

/-- Claim C3, counterexample: with the bot at (1,0) facing up and the
menhir at (0,0) on an open 2-by-1 grid, the `get_state` distance field is
the Euclidean value 1, while the section-4.4 path-cost distance is 2 (one
left turn plus one move); the field does not satisfy the path-cost value. -/
theorem C3_counterexample_euclidean_field :
    get_state_menhir_distance ⟨1, 0⟩ ⟨0, 0⟩ 1 ∧
    distance_to_menhir grid_open_pair ⟨1, 0⟩ Facing.up ⟨0, 0⟩ = 2 ∧
    ¬ get_state_menhir_distance ⟨1, 0⟩ ⟨0, 0⟩
        ((distance_to_menhir grid_open_pair ⟨1, 0⟩ Facing.up ⟨0, 0⟩ : ℚ)) := by
  refine ⟨?_, by decide, ?_⟩
  · constructor
    · norm_num
    · norm_num [get_state_menhir_distance, sub_coords]
  · rw [show distance_to_menhir grid_open_pair ⟨1, 0⟩ Facing.up ⟨0, 0⟩ = 2 by decide]
    intro h
    have h2 := h.2
    norm_num [sub_coords] at h2

/-- Claim C3, amended: the `get_state` distance field is the straight-line
Euclidean distance to the menhir — the unique nonnegative root of
`dx ^ 2 + dy ^ 2` — not the path-cost distance of section 4.4. -/
theorem C3_distance_field_is_euclidean (bot menhir : Coords) (r s : ℚ)
    (hr : get_state_menhir_distance bot menhir r)
    (hs : get_state_menhir_distance bot menhir s) :
    r = s := by
  obtain ⟨hr0, hr2⟩ := hr
  obtain ⟨hs0, hs2⟩ := hs
  have h : r ^ 2 = s ^ 2 := by rw [hr2, hs2]
  have hf : (r - s) * (r + s) = 0 := by
    have h2 : r ^ 2 - s ^ 2 = 0 := by rw [h]; ring
    calc (r - s) * (r + s) = r ^ 2 - s ^ 2 := by ring
    _ = 0 := h2
  rcases mul_eq_zero.mp hf with h0 | h0
  · exact sub_eq_zero.mp h0
  · linarith

/-- Claim C3, witness: the uniqueness of the Euclidean field value applied
at the concrete input of the counterexample. -/
theorem C3_distance_field_is_euclidean_witness : (1 : ℚ) = 1 :=
  C3_distance_field_is_euclidean ⟨1, 0⟩ ⟨0, 0⟩ 1 1
    (by constructor
        · norm_num
        · norm_num [get_state_menhir_distance, sub_coords])
    (by constructor
        · norm_num
        · norm_num [get_state_menhir_distance, sub_coords])

/-- Claim C4, counterexample: with two visible enemies inserted far-first,
the returned offsets are in map-insertion order — the offset (2,0) of
squared distance 4 occupies the first slot, ahead of (0,-1) of squared
distance 1 — not in ascending Euclidean distance as the claim requires. -/
theorem C4_counterexample_insertion_order :
    relative_enemies_positions snap_far_then_near =
      some [2, 0, 0, -1, 0, 0, 0, 0, 0, 0] ∧
    enemies_rel_coords snap_far_then_near = [⟨2, 0⟩, ⟨0, -1⟩] ∧
    (2 : Int) ^ 2 + 0 ^ 2 > 0 ^ 2 + (-1 : Int) ^ 2 := by
  decide

/-- Once the slot index reaches the capacity, the next write fails: the
fill loop returns `none` whenever more offsets remain than free slots. -/
theorem fill_relative_overflow (es : List Coords) : ∀ (i : Nat) (acc : List Int),
    acc.length = 10 → i ≤ 5 → 5 < i + es.length →
    fill_relative es i acc = none := by
  induction es with
  | nil =>
    intro i acc _ hi h
    simp only [List.length_nil, Nat.add_zero] at h
    omega
  | cons c rest ih =>
    intro i acc hlen hi h
    by_cases hcase : i = 5
    · subst hcase
      simp [fill_relative, list_set_checked, hlen]
    · have h2i : 2 * i < 10 := by omega
      have h2i1 : 2 * i + 1 < 10 := by omega
      simp only [fill_relative, list_set_checked, hlen, List.length_set, h2i,
        h2i1, if_true, Option.some_bind]
      apply ih
      · simp [hlen]
      · omega
      · simp at h ⊢
        omega

/-- Claim C4, amended: the relative-offset list holds the offsets of the
visible other occupants in map-iteration (insertion) order, zero-padded to
the 10 preallocated slots; when more than 5 occupants are visible the
operation fails with an index error instead of truncating. -/
theorem C4_offsets_in_iteration_order :
    (∀ (k : ChampionKnowledge) (d1 d2 : Coords),
        enemies_rel_coords k = [d1, d2] →
        relative_enemies_positions k =
          some [d1.x, d1.y, d2.x, d2.y, 0, 0, 0, 0, 0, 0]) ∧
    (∀ k : ChampionKnowledge, 5 < (enemies_rel_coords k).length →
        relative_enemies_positions k = none) := by
  constructor
  · intro k d1 d2 h
    unfold relative_enemies_positions
    rw [h]
    rfl
  · intro k h
    unfold relative_enemies_positions
    exact fill_relative_overflow _ 0 _ (by simp) (by omega) (by simpa using h)

/-- Claim C4, witness: the spec's scenario — offsets (1,0) and (0,-1),
which here coincide with insertion order — evaluated through the amended
theorem. -/
theorem C4_offsets_in_iteration_order_witness :
    relative_enemies_positions snap_offsets_scenario =
      some [1, 0, 0, -1, 0, 0, 0, 0, 0, 0] :=
  C4_offsets_in_iteration_order.1 snap_offsets_scenario ⟨1, 0⟩ ⟨0, -1⟩ (by decide)

/-- Claim C7, counterexample: on a snapshot whose own cell carries no
occupant, `get_state` does not fail: it silently substitutes the defaults
knife, facing up and health 5, while the `Wisdom` accessor `bot_facing`
does fail. -/
theorem C7_counterexample_get_state_defaults :
    get_state_own_fields snap_no_occupant = (WeaponName.knife, Facing.up, 5) ∧
    bot_facing snap_no_occupant = none := by
  decide

/-- Claim C7, amended: when the own cell's occupant is missing, the
`Wisdom` accessors `bot_facing`, `bot_health` and `bot_weapon` fail fast,
but `get_state` silently substitutes the defaults knife, facing up and
health 5 rather than failing. -/
theorem C7_accessors_fail_but_get_state_defaults (k : ChampionKnowledge)
    (h : (lookupTiles k.visibleTiles k.position).bind (fun t => t.character) = none) :
    get_state_own_fields k = (WeaponName.knife, Facing.up, 5) ∧
    bot_facing k = none ∧ bot_health k = none ∧ bot_weapon k = none := by
  rcases hl : lookupTiles k.visibleTiles k.position with _ | tile
  · simp [get_state_own_fields, bot_facing, bot_health, bot_weapon, hl]
  · have hc : tile.character = none := by simpa [hl] using h
    simp [get_state_own_fields, bot_facing, bot_health, bot_weapon, hl, hc]

/-- Claim C7, witness: the amended statement applied to the concrete
occupant-less snapshot. -/
theorem C7_accessors_fail_witness :
    get_state_own_fields snap_no_occupant = (WeaponName.knife, Facing.up, 5) ∧
    bot_facing snap_no_occupant = none ∧ bot_health snap_no_occupant = none ∧
    bot_weapon snap_no_occupant = none :=
  C7_accessors_fail_but_get_state_defaults snap_no_occupant (by decide)

/-- Claim C8: when the start equals the goal, the finder returns the
one-node path and the per-step fold contributes nothing, so the total
path-cost is 0 — for every grid, every in-bounds position and every
facing. -/
theorem C8_start_eq_goal_cost_zero (g : GridMap) (p : Coords) (f : Facing)
    (h : g.inBounds p = true) :
    find_path g p p = some [p] ∧ find_path_len g p f p = some 0 ∧
    distance_to_menhir g p f p = 0 := by
  have hp : find_path g p p = some [p] := find_path_self g p h
  have hlen : find_path_len g p f p = some 0 := by
    simp [find_path_len, hp, find_path_len_fold]
  refine ⟨hp, hlen, ?_⟩
  simp [distance_to_menhir, hlen]

/-- Claim C8, witness: start equals goal on the concrete 1-by-1 grid. -/
theorem C8_start_eq_goal_witness :
    find_path grid_single ⟨0, 0⟩ ⟨0, 0⟩ = some [⟨0, 0⟩] ∧
    find_path_len grid_single ⟨0, 0⟩ Facing.up ⟨0, 0⟩ = some 0 ∧
    distance_to_menhir grid_single ⟨0, 0⟩ Facing.up ⟨0, 0⟩ = 0 :=
  C8_start_eq_goal_cost_zero grid_single ⟨0, 0⟩ Facing.up (by decide)

/-- Claim C9: `lost_health` is the disequality of the current and previous
own health, and on the first tick the previous-health baseline is
`MAX_HEALTH`. -/
theorem C9_lost_health_iff_changed (k : ChampionKnowledge)
    (prev : Option ChampionKnowledge) (h hp : Nat)
    (hh : bot_health k = some h) (hhp : prev_bot_health prev = some hp) :
    lost_health k prev = some (h != hp) ∧ (prev = none → hp = MAX_HEALTH) := by
  constructor
  · simp [lost_health, hh, hhp]
  · intro hnone
    subst hnone
    simp [prev_bot_health] at hhp
    exact hhp.symm

/-- Claim C9, witness: a first-tick snapshot with 3 health reports a health
loss against the maximum-health baseline. -/
theorem C9_lost_health_witness :
    lost_health snap_hurt_bot none = some ((3 : Nat) != 5) ∧
    ((none : Option ChampionKnowledge) = none → (5 : Nat) = MAX_HEALTH) :=
  C9_lost_health_iff_changed snap_hurt_bot none 3 5 (by decide) (by decide)

/-- Claim C10, counterexample: `can_attack_player` evaluates its footprint
lazily, so with an occupant on the first footprint cell it returns true
even though the second footprint cell is absent from the visible-tiles
map — it does not fail with a key-lookup error on every snapshot with a
missing queried cell. -/
theorem C10_counterexample_lazy_lookup :
    can_attack_player snap_adjacent_enemy [⟨1, 0⟩, ⟨2, 0⟩] = some true ∧
    lookupTiles snap_adjacent_enemy.visibleTiles ⟨2, 0⟩ = none := by
  decide

/-- Claim C10, amended: the lookups are unguarded but lazy, in footprint
order. When every footprint cell is visible, `can_attack_player` returns a
boolean; it fails with a key-lookup error when the first inspected cell is
missing; and `will_pick_up_worse_weapon` fails whenever the single cell
directly ahead of the bot's facing is missing. -/
theorem C10_unguarded_lazy_lookups :
    (∀ (k : ChampionKnowledge) (cuts : List Coords),
        (∀ c ∈ cuts, (lookupTiles k.visibleTiles c).isSome = true) →
        (can_attack_player k cuts).isSome = true) ∧
    (∀ (k : ChampionKnowledge) (c : Coords) (rest : List Coords),
        lookupTiles k.visibleTiles c = none →
        can_attack_player k (c :: rest) = none) ∧
    (∀ (k : ChampionKnowledge) (f : Facing),
        bot_facing k = some f →
        lookupTiles k.visibleTiles (add_coords k.position f.value) = none →
        will_pick_up_worse_weapon k = none) := by
  refine ⟨?_, ?_, ?_⟩
  · intro k cuts
    induction cuts with
    | nil => intro _; simp [can_attack_player, visible_character_scan]
    | cons c rest ih =>
      intro hall
      obtain ⟨t, ht⟩ := Option.isSome_iff_exists.mp (hall c (List.mem_cons_self c rest))
      simp only [can_attack_player, visible_character_scan, ht]
      by_cases hch : t.character.isSome
      · simp [hch]
      · simp only [hch, if_false, Bool.false_eq_true]
        exact ih fun c' hc' => hall c' (List.mem_cons_of_mem _ hc')
  · intro k c rest hmiss
    simp [can_attack_player, visible_character_scan, hmiss]
  · intro k f hf hmiss
    simp [will_pick_up_worse_weapon, hf, hmiss]

/-- Claim C10, witness: the fully-visible-footprint case evaluated on a
concrete snapshot and a one-cell footprint. -/
theorem C10_unguarded_lazy_lookups_witness :
    (can_attack_player snap_adjacent_enemy [⟨1, 0⟩]).isSome = true :=
  C10_unguarded_lazy_lookups.1 snap_adjacent_enemy [⟨1, 0⟩] (by decide)
